import Mathlib

/-!
Shallow embedding of the pricing engine in `app/models.py` of
ysong01/pricing-simulator, together with theorems checking the
natural-language specification against it.

Python floats are modelled as real numbers; a Python exception is modelled
with `Except PyErr`; the in-place mutation of the `PricingCalculator` object
is modelled by explicit state passing on a `Scenario` value; the ambient
wall clock read `datetime.now().month` is passed explicitly as a
`clockMonth` argument.
-/

namespace PricingSim

/-- The exception kinds relevant to the specification and the code.
`attributeError`, `typeError` and `valueError` are the Python built-ins the
code can actually raise; `domainError`, `invalidParameterError` and
`insufficientDataError` are the typed errors the specification's taxonomy
names (no class of these names exists anywhere in the repository). -/
inductive PyErr
  | attributeError
  | typeError
  | valueError
  | domainError
  | invalidParameterError
  | insufficientDataError
deriving DecidableEq, Repr

/-- Whether an `Except` computation ended in an exception. -/
def failed : Except PyErr α → Bool
  | .error _ => true
  | .ok _ => false

/-- The attribute state a `PricingCalculator` instance holds after
`__init__` (models.py lines 8-45).  Scalar numeric attributes are reals; the
sequence-valued attributes are carried as lists.  The `segments` attribute
(a mapping name ↦ {price_sensitivity, size}) is carried as a list of
(name, price_sensitivity, size) triples. -/
structure Scenario where
  initial_price : ℝ
  initial_quantity : ℝ
  elasticity : ℝ
  fixed_costs : ℝ
  variable_costs : ℝ
  competitor_price : ℝ
  market_share : ℝ
  seasonality_factor : ℝ
  quality_index : ℝ
  market_growth_rate : ℝ
  min_margin : ℝ
  competitor_responsiveness : ℝ
  competitor_prices_history : List ℝ
  market_players : List String
  segments : List (String × ℝ × ℝ)
  order_cost : ℝ
  holding_cost_rate : ℝ
  lead_time : ℝ
  historical_prices : List ℝ
  historical_demands : List ℝ
  risk_tolerance : ℝ
  confidence_level : ℝ

/-- Result of a Python `getattr(self, name)`: a numeric scalar attribute, a
non-scalar attribute (list or dict valued), or no attribute of that name at
all (in which case Python raises `AttributeError`). -/
inductive AttrValue
  | scalar (v : ℝ)
  | nonScalar
  | missing

/-- Model of `getattr(self, name)` over the attributes set up by `__init__`
(models.py lines 8-45). -/
def getattrModel (s : Scenario) (name : String) : AttrValue :=
  if name = "initial_price" then .scalar s.initial_price
  else if name = "initial_quantity" then .scalar s.initial_quantity
  else if name = "elasticity" then .scalar s.elasticity
  else if name = "fixed_costs" then .scalar s.fixed_costs
  else if name = "variable_costs" then .scalar s.variable_costs
  else if name = "competitor_price" then .scalar s.competitor_price
  else if name = "market_share" then .scalar s.market_share
  else if name = "seasonality_factor" then .scalar s.seasonality_factor
  else if name = "quality_index" then .scalar s.quality_index
  else if name = "market_growth_rate" then .scalar s.market_growth_rate
  else if name = "min_margin" then .scalar s.min_margin
  else if name = "competitor_responsiveness" then .scalar s.competitor_responsiveness
  else if name = "order_cost" then .scalar s.order_cost
  else if name = "holding_cost_rate" then .scalar s.holding_cost_rate
  else if name = "lead_time" then .scalar s.lead_time
  else if name = "risk_tolerance" then .scalar s.risk_tolerance
  else if name = "confidence_level" then .scalar s.confidence_level
  else if name = "competitor_prices_history" then .nonScalar
  else if name = "market_players" then .nonScalar
  else if name = "segments" then .nonScalar
  else if name = "historical_prices" then .nonScalar
  else if name = "historical_demands" then .nonScalar
  else .missing

/-- Model of `setattr(self, name, v)` for the numeric scalar attributes.  Inside
`sensitivity_analysis` this is only ever reached for a name whose `getattr`
returned a scalar, so the fallthrough branch is irrelevant there. -/
def setattrModel (s : Scenario) (name : String) (v : ℝ) : Scenario :=
  if name = "initial_price" then { s with initial_price := v }
  else if name = "initial_quantity" then { s with initial_quantity := v }
  else if name = "elasticity" then { s with elasticity := v }
  else if name = "fixed_costs" then { s with fixed_costs := v }
  else if name = "variable_costs" then { s with variable_costs := v }
  else if name = "competitor_price" then { s with competitor_price := v }
  else if name = "market_share" then { s with market_share := v }
  else if name = "seasonality_factor" then { s with seasonality_factor := v }
  else if name = "quality_index" then { s with quality_index := v }
  else if name = "market_growth_rate" then { s with market_growth_rate := v }
  else if name = "min_margin" then { s with min_margin := v }
  else if name = "competitor_responsiveness" then { s with competitor_responsiveness := v }
  else if name = "order_cost" then { s with order_cost := v }
  else if name = "holding_cost_rate" then { s with holding_cost_rate := v }
  else if name = "lead_time" then { s with lead_time := v }
  else if name = "risk_tolerance" then { s with risk_tolerance := v }
  else if name = "confidence_level" then { s with confidence_level := v }
  else s

noncomputable section

/-- Source method `seasonal_demand_adjustment` (models.py lines 47-51).  The month is not a
parameter of the Python method: it is read from the wall clock by
`month = datetime.now().month`; the embedding passes that ambient clock
reading explicitly as `clockMonth`. -/
def seasonal_demand_adjustment (s : Scenario) (clockMonth : ℕ) (base_demand : ℝ) : ℝ :=
  let seasonal_factor := 1 + s.seasonality_factor * Real.sin (2 * Real.pi * clockMonth / 12)
  base_demand * seasonal_factor

/-- Source method `quality_adjusted_price` (models.py lines 53-55). -/
def quality_adjusted_price (s : Scenario) (price : ℝ) : ℝ :=
  price / s.quality_index

/-- Source method `demand_function` (models.py lines 57-62): constant-elasticity base
demand, seasonal adjustment (with the ambient clock month), then the market
growth factor. -/
def demand_function (s : Scenario) (clockMonth : ℕ) (price : ℝ) : ℝ :=
  let base_demand := s.initial_quantity *
    (s.initial_price / quality_adjusted_price s price) ^ s.elasticity
  let seasonal_demand := seasonal_demand_adjustment s clockMonth base_demand
  let market_growth_adjustment := 1 + s.market_growth_rate
  seasonal_demand * market_growth_adjustment

/-- Source method `calculate_price_bounds` (models.py lines 64-68).  It unconditionally
returns the pair `(variable_costs / (1 - min_margin), initial_price * 3.0)`:
there is no feasibility check and no error path of any kind. -/
def calculate_price_bounds (s : Scenario) : ℝ × ℝ :=
  let min_price := s.variable_costs / (1 - s.min_margin)
  let max_price := s.initial_price * 3.0
  (min_price, max_price)

/-- The attribute `self.profit_function` is called at models.py lines 75 and 89, but no
method of that name is defined anywhere in the class, so the attribute
lookup raises `AttributeError` before any call can happen. -/
def profit_function (_s : Scenario) (_clockMonth : ℕ) (_price : ℝ) : Except PyErr ℝ :=
  .error .attributeError

/-- The attribute `self.revenue_function` is called at models.py line 88, but no method of
that name is defined anywhere in the class, so the attribute lookup raises
`AttributeError`. -/
def revenue_function (_s : Scenario) (_clockMonth : ℕ) (_price : ℝ) : Except PyErr ℝ :=
  .error .attributeError

/-- The attribute `self.competitor_impact` is called at models.py line 90, but no method
of that name is defined anywhere in the class, so the attribute lookup
raises `AttributeError`.  (A spec-modelled `competitor_impact` body appears
separately below for the claim that describes the intended function.) -/
def competitor_impact_lookup (_s : Scenario) (_price : ℝ) : Except PyErr ℝ :=
  .error .attributeError

/-- Model of `scipy.optimize.minimize(..., method=L-BFGS-B)` as used at models.py
lines 74-79 — external library code, not part of this repository.  It is
modelled only as far as the claims need: the solver begins by evaluating the
objective at the initial guess `x0`, and a Python exception raised there
propagates out of `minimize`.  The numeric-search success branch is
represented by returning the initial guess; in this codebase it is
unreachable, because the objective always raises (`profit_function` is
undefined on the class — see `minimize_objective_always_raises` below). -/
def minimizeLBFGSB (objective : ℝ → Except PyErr ℝ) (x0 : ℝ)
    (_bounds : ℝ × ℝ) : Except PyErr ℝ :=
  match objective x0 with
  | .error e => .error e
  | .ok _ => .ok x0

/-- Python `round(x, ndigits)` on a float, modelled with round-to-nearest
(the banker-vs-away tie behaviour is irrelevant to every claim: no rounded
value is ever produced by the code, see `calculate_optimal_price_fails`). -/
def pyRound (x : ℝ) (ndigits : ℕ) : ℝ :=
  (round (x * 10 ^ ndigits) : ℤ) / 10 ^ ndigits

/-- The result dictionary built by `calculate_optimal_price`
(models.py lines 85-95). -/
structure OptResult where
  optimal_price : ℝ
  optimal_quantity : ℝ
  revenue : ℝ
  profit : ℝ
  market_share : ℝ
  break_even_point : ℝ
  profit_margin : ℝ
  seasonality_impact : ℝ
  quality_adjusted_price : ℝ

/-- Source method `calculate_optimal_price` (models.py lines 70-95).  The monadic binds
follow the evaluation order of the source: the solver call (whose objective
looks up the undefined `profit_function`), then the dictionary entries in
order — `revenue_function` (line 88), `profit_function` (line 89),
`competitor_impact` (line 90). -/
def calculate_optimal_price (s : Scenario) (clockMonth : ℕ) :
    Except PyErr OptResult := do
  let bounds := calculate_price_bounds s
  let optimal_price ← minimizeLBFGSB
    (fun p => do
      let profit ← profit_function s clockMonth p
      pure (-profit))
    s.initial_price bounds
  let optimal_quantity := demand_function s clockMonth optimal_price
  let margin := (optimal_price - s.variable_costs) / optimal_price
  let revenue ← revenue_function s clockMonth optimal_price
  let profit ← profit_function s clockMonth optimal_price
  let share ← competitor_impact_lookup s optimal_price
  pure
    { optimal_price := pyRound optimal_price 2
      optimal_quantity := pyRound optimal_quantity 2
      revenue := pyRound revenue 2
      profit := pyRound profit 2
      market_share := pyRound share 3
      break_even_point := pyRound (s.fixed_costs / (optimal_price - s.variable_costs)) 2
      profit_margin := pyRound margin 3
      seasonality_impact := pyRound (seasonal_demand_adjustment s clockMonth 1.0) 3
      quality_adjusted_price := pyRound (quality_adjusted_price s optimal_price) 2 }

/-- Model of `np.linspace(a, b, 5)` as used at models.py line 100: five equally
spaced points from `a` to `b` inclusive. -/
def linspace5 (a b : ℝ) : List ℝ :=
  [a, a + (b - a) / 4, a + 2 * (b - a) / 4, a + 3 * (b - a) / 4, b]

/-- The `for var in variations` loop of `sensitivity_analysis`
(models.py lines 103-106): overwrite the attribute, rerun the optimizer,
collect the result.  An exception aborts the loop with the attribute still
holding the perturbed value (the source has no try/finally). -/
def sensitivitySweep (varName : String) (clockMonth : ℕ) :
    List ℝ → Scenario → Except PyErr (List OptResult) × Scenario
  | [], s => (.ok [], s)
  | v :: rest, s =>
    let s1 := setattrModel s varName v
    match calculate_optimal_price s1 clockMonth with
    | .error e => (.error e, s1)
    | .ok res =>
      match sensitivitySweep varName clockMonth rest s1 with
      | (.ok results, s2) => (.ok (res :: results), s2)
      | (.error e, s2) => (.error e, s2)

/-- Source method `sensitivity_analysis` (models.py lines 97-109).  `getattr` on an
unknown attribute name raises `AttributeError`; on a list- or dict-valued
attribute the subsequent `base_value * (1 - range_percent)` raises
`TypeError`; otherwise the five-point sweep runs and the restore at line 108
executes only after a fully successful sweep. -/
def sensitivity_analysis (s : Scenario) (varName : String)
    (range_percent : ℝ) (clockMonth : ℕ) :
    Except PyErr (List OptResult) × Scenario :=
  match getattrModel s varName with
  | .missing => (.error .attributeError, s)
  | .nonScalar => (.error .typeError, s)
  | .scalar base_value =>
    let variations :=
      linspace5 (base_value * (1 - range_percent)) (base_value * (1 + range_percent))
    match sensitivitySweep varName clockMonth variations s with
    | (.error e, s1) => (.error e, s1)
    | (.ok results, s1) => (.ok results, setattrModel s1 varName base_value)

/-- Modelled from the spec: the fit/forecast of
`statsmodels.tsa.holtwinters.ExponentialSmoothing(..., seasonal_periods=12,
trend=add, seasonal=add)` called at models.py lines 149-157 is external
library code, not part of this repository.  Per the spec the seasonal fit
needs at least two full seasonal cycles (2 · 12 = 24 points) of history;
below that the library fit raises a `ValueError`.  The numeric forecast
values themselves decide no claim and are not modelled; only the length of
the forecast (`periods`) matters to the callers. -/
def holtWintersForecast (demands : List ℝ) (periods : ℕ) : Except PyErr (List ℝ) :=
  if demands.length < 24 then .error .valueError
  else .ok (List.replicate periods 0)

/-- One row of the price schedule built at models.py lines 164-169. -/
structure ForecastEntry where
  period : ℕ
  forecasted_demand : ℝ
  optimal_price : ℝ
  expected_profit : ℝ

/-- The `for period, forecasted_demand in enumerate(demand_forecast)` loop
of `forecast_optimal_prices` (models.py lines 161-169): each iteration
overwrites `self.initial_quantity` with the forecasted demand and reruns the
optimizer; an exception aborts the loop with the overwritten quantity left
in place. -/
def forecastLoop (clockMonth : ℕ) :
    List ℝ → ℕ → Scenario → Except PyErr (List ForecastEntry) × Scenario
  | [], _, s => (.ok [], s)
  | d :: rest, period, s =>
    let s1 := { s with initial_quantity := d }
    match calculate_optimal_price s1 clockMonth with
    | .error e => (.error e, s1)
    | .ok res =>
      match forecastLoop clockMonth rest (period + 1) s1 with
      | (.ok entries, s2) =>
        (.ok ({ period := period + 1, forecasted_demand := d,
                optimal_price := res.optimal_price,
                expected_profit := res.profit } :: entries), s2)
      | (.error e, s2) => (.error e, s2)

/-- Source method `forecast_optimal_prices` (models.py lines 146-171): fit the smoothing
model to `historical_demands` (no length validation of any kind precedes
the fit), forecast `periods` points, then loop. -/
def forecast_optimal_prices (s : Scenario) (clockMonth : ℕ) (periods : ℕ) :
    Except PyErr (List ForecastEntry) × Scenario :=
  match holtWintersForecast s.historical_demands periods with
  | .error e => (.error e, s)
  | .ok demand_forecast => forecastLoop clockMonth demand_forecast 0 s

/-- Insert into a sorted list of reals (ascending). -/
def insertSorted (x : ℝ) : List ℝ → List ℝ
  | [] => [x]
  | y :: ys => if x ≤ y then x :: y :: ys else y :: insertSorted x ys

/-- Sort a list of reals ascending (insertion sort). -/
def sortAsc (xs : List ℝ) : List ℝ := xs.foldr insertSorted []

/-- Model of `np.percentile(xs, q)` with the default linear interpolation, as called
at models.py line 186 — external numpy code, not part of this repository.
Its value decides no claim (the surrounding function always raises before
reaching it). -/
def npPercentile (xs : List ℝ) (q : ℝ) : ℝ :=
  let sorted := sortAsc xs
  let n := xs.length
  if n = 0 then 0
  else
    let rank := q / 100 * ((n : ℝ) - 1)
    let lo := ⌊rank⌋
    let lov := sorted.getD lo.toNat 0
    let hiv := sorted.getD (lo.toNat + 1) lov
    lov + (rank - lo) * (hiv - lov)

/-- The `for _ in range(1000)` Monte-Carlo loop of
`calculate_risk_adjusted_price` (models.py lines 179-184).  The random
shocks `np.random.normal(1, 0.2)` are passed in as the list `shocks`; the
update `self.initial_quantity *= demand_shock` is the source's in-place
mutation, so each iteration starts from the previous iteration's mutated
quantity. -/
def riskLoop (clockMonth : ℕ) :
    List ℝ → Scenario → List ℝ → Except PyErr (List ℝ) × Scenario
  | [], s, acc => (.ok acc, s)
  | shock :: rest, s, acc =>
    let s1 := { s with initial_quantity := s.initial_quantity * shock }
    match calculate_optimal_price s1 clockMonth with
    | .error e => (.error e, s1)
    | .ok res => riskLoop clockMonth rest s1 (acc ++ [res.profit])

/-- The value `self.initial_quantity` holds at the start of each Monte-Carlo
trial under the in-place update `self.initial_quantity *= demand_shock`
(models.py line 182), starting from baseline quantity `q0`: the trace of the
state-update part of `riskLoop`, trial by trial. -/
def riskTrialQuantities (q0 : ℝ) : List ℝ → List ℝ
  | [] => []
  | shock :: rest => q0 * shock :: riskTrialQuantities (q0 * shock) rest

/-- The result dictionary of `calculate_risk_adjusted_price`
(models.py lines 194-199): the baseline record plus the risk fields. -/
structure RiskResult where
  base : OptResult
  risk_adjusted_price : ℝ
  value_at_risk : ℝ
  price_adjustment : ℝ

/-- Source method `calculate_risk_adjusted_price` (models.py lines 173-199): baseline
optimization, Monte-Carlo loop over the shocks, percentile VaR, price
adjustment. -/
def calculate_risk_adjusted_price (s : Scenario) (clockMonth : ℕ)
    (shocks : List ℝ) : Except PyErr RiskResult × Scenario :=
  match calculate_optimal_price s clockMonth with
  | .error e => (.error e, s)
  | .ok base_result =>
    match riskLoop clockMonth shocks s [] with
    | (.error e, s1) => (.error e, s1)
    | (.ok profit_distribution, s1) =>
      let varValue := npPercentile profit_distribution ((1 - s1.confidence_level) * 100)
      let risk_adjusted_price := base_result.optimal_price *
        (1 + (1 - s1.risk_tolerance) * (varValue / base_result.profit))
      (.ok { base := base_result
             risk_adjusted_price := pyRound risk_adjusted_price 2
             value_at_risk := pyRound varValue 2
             price_adjustment := pyRound ((risk_adjusted_price - base_result.optimal_price) /
               base_result.optimal_price * 100) 2 }, s1)

/-- Modelled from the spec: `competitor_impact` is invoked at models.py
line 90 but no method of that name is defined anywhere in the class — only
its caller is in the source.  Body per spec section 4.1:
price_ratio = price / competitor_price;
share = market_share * (2 - price_ratio), clamped to [0, 1]. -/
def competitor_impact (s : Scenario) (price : ℝ) : ℝ :=
  let price_ratio := price / s.competitor_price
  let share := s.market_share * (2 - price_ratio)
  min (max share 0) 1

/-- The spec section 8 scenario (initial_price 50, initial_quantity 1000,
elasticity -1.5, fixed_costs 10000, variable_costs 20, competitor_price 55)
with every optional attribute at the `__init__` default
(models.py lines 16-45). -/
def S0 : Scenario :=
  { initial_price := 50
    initial_quantity := 1000
    elasticity := -1.5
    fixed_costs := 10000
    variable_costs := 20
    competitor_price := 55
    market_share := 0.5
    seasonality_factor := 1.0
    quality_index := 1.0
    market_growth_rate := 0.02
    min_margin := 0.1
    competitor_responsiveness := 0.3
    competitor_prices_history := []
    market_players := []
    segments := [("premium", 0.5, 0.3), ("middle", 1.0, 0.5), ("budget", 1.5, 0.2)]
    order_cost := 100
    holding_cost_rate := 0.1
    lead_time := 14
    historical_prices := []
    historical_demands := []
    risk_tolerance := 0.5
    confidence_level := 0.95 }

/-- The spec section 8 boundary input for the price-bound claim:
min_margin 0.99, and costs/price chosen so the margin-enforcing lower bound
(100) exceeds the upper bound (3). -/
def S5 : Scenario :=
  { S0 with variable_costs := 1, min_margin := 0.99, initial_price := 1 }

/-- A scenario whose demand history has only 10 points — fewer than the two
full seasonal cycles (24 points) forecasting needs. -/
def S10 : Scenario :=
  { S0 with historical_demands := List.replicate 10 100 }

end

/-- The objective handed to the solver looks up the undefined
`profit_function`, so every evaluation of it raises `AttributeError`. -/
theorem minimize_objective_always_raises (s : Scenario) (m : ℕ) (p : ℝ) :
    (do
      let profit ← profit_function s m p
      pure (-profit) : Except PyErr ℝ) = .error .attributeError := rfl

/-- Lemma: `calculate_optimal_price` raises `AttributeError` on every scenario and
every clock month: the very first evaluation of the solver objective looks
up the undefined `profit_function`. -/
theorem calculate_optimal_price_fails (s : Scenario) (m : ℕ) :
    calculate_optimal_price s m = .error .attributeError := rfl

/-- A non-empty sensitivity sweep aborts inside its first iteration with the
attribute left at the first perturbed value. -/
theorem sensitivitySweep_cons_fails (v : String) (m : ℕ) (x : ℝ)
    (rest : List ℝ) (s : Scenario) :
    sensitivitySweep v m (x :: rest) s =
      (.error .attributeError, setattrModel s v x) := by
  simp [sensitivitySweep, calculate_optimal_price_fails]

/-- Lemma: `sensitivity_analysis` fails on every scenario, every attribute name and
every range: unknown names fail at `getattr`, non-scalar attributes fail at
the arithmetic on the base value, and scalar attributes fail inside the
first sweep iteration. -/
theorem sensitivity_analysis_fails (s : Scenario) (v : String) (r : ℝ) (m : ℕ) :
    failed (sensitivity_analysis s v r m).1 = true := by
  unfold sensitivity_analysis
  cases getattrModel s v with
  | missing => rfl
  | nonScalar => rfl
  | scalar base => simp [linspace5, sensitivitySweep_cons_fails, failed]

/-- A non-empty forecast loop aborts inside its first iteration with
`initial_quantity` left overwritten by the first forecasted demand. -/
theorem forecastLoop_cons_fails (m : ℕ) (d : ℝ) (rest : List ℝ) (per : ℕ)
    (s : Scenario) :
    forecastLoop m (d :: rest) per s =
      (.error .attributeError, { s with initial_quantity := d }) := by
  simp [forecastLoop, calculate_optimal_price_fails]

/-- Lemma: `forecast_optimal_prices` fails on every scenario whenever at least one
period is requested: a short history fails inside the library fit, and
otherwise the first loop iteration fails in `calculate_optimal_price`. -/
theorem forecast_optimal_prices_fails (s : Scenario) (m : ℕ) (periods : ℕ)
    (h : 1 ≤ periods) :
    failed (forecast_optimal_prices s m periods).1 = true := by
  obtain ⟨p, rfl⟩ : ∃ p, periods = p + 1 := ⟨periods - 1, by omega⟩
  by_cases hl : s.historical_demands.length < 24
  · simp [forecast_optimal_prices, holtWintersForecast, hl, failed]
  · simp [forecast_optimal_prices, holtWintersForecast, hl,
      List.replicate_succ, forecastLoop_cons_fails, failed]

/-- Lemma: `calculate_risk_adjusted_price` fails on every scenario and every shock
sequence: the baseline optimization raises before any Monte-Carlo trial
runs, and the scenario state is returned unmutated. -/
theorem calculate_risk_adjusted_price_fails (s : Scenario) (m : ℕ)
    (shocks : List ℝ) :
    calculate_risk_adjusted_price s m shocks = (.error .attributeError, s) := by
  simp [calculate_risk_adjusted_price, calculate_optimal_price_fails]

/-- Claim C1: for every parameter bundle accepted by the constructor,
`calculate_optimal_price` raises `AttributeError` rather than returning a
result record — the methods it invokes (`profit_function`,
`revenue_function`, `competitor_impact`) are not defined in the class — and
consequently `sensitivity_analysis`, `forecast_optimal_prices` (for any
positive number of periods) and `calculate_risk_adjusted_price` also fail
on every input. -/
theorem C1_all_operations_fail (s : Scenario) (m : ℕ) :
    calculate_optimal_price s m = .error .attributeError
    ∧ (∀ v r, failed (sensitivity_analysis s v r m).1 = true)
    ∧ (∀ periods : ℕ, 1 ≤ periods →
        failed (forecast_optimal_prices s m periods).1 = true)
    ∧ (∀ shocks : List ℝ,
        failed (calculate_risk_adjusted_price s m shocks).1 = true) := by
  refine ⟨calculate_optimal_price_fails s m,
    fun v r => sensitivity_analysis_fails s v r m,
    fun periods h => forecast_optimal_prices_fails s m periods h,
    fun shocks => ?_⟩
  rw [calculate_risk_adjusted_price_fails]
  rfl

/-- Claim C1 witness: the failures instantiated at the spec section 8
scenario, clock month 6, the default 12 forecast periods and an empty shock
list. -/
theorem C1_witness :
    calculate_optimal_price S0 6 = .error .attributeError
    ∧ failed (sensitivity_analysis S0 "elasticity" 0.2 6).1 = true
    ∧ 1 ≤ 12
    ∧ failed (forecast_optimal_prices S0 6 12).1 = true
    ∧ failed (calculate_risk_adjusted_price S0 6 []).1 = true := by
  obtain ⟨h1, h2, h3, h4⟩ := C1_all_operations_fail S0 6
  exact ⟨h1, h2 "elasticity" 0.2, by norm_num, h3 12 (by norm_num), h4 []⟩

/-- Claim C2 (code-bug evidence): the spec section 8 scenario satisfies the
claim's side condition `variable_costs · 1.1 < initial_price · 3`, yet
`calculate_optimal_price` raises `AttributeError` instead of returning a
record, so there is no `optimal_price` field to lie within the interval of
`calculate_price_bounds`. -/
theorem C2_optimizer_never_returns_a_record :
    S0.variable_costs * 1.1 < S0.initial_price * 3
    ∧ calculate_optimal_price S0 6 = .error .attributeError := by
  exact ⟨by norm_num [S0], calculate_optimal_price_fails S0 6⟩

/-- Claim C4 (code-bug evidence): under the in-place update
`self.initial_quantity *= demand_shock` of models.py line 182, with baseline
quantity 1000 and shocks [1.5, 1.0], trial 2 starts from
1500 = 1000 · 1.5 · 1.0 rather than the unperturbed baseline times its own
shock (1000 · 1.0 = 1000) — the perturbations compound; moreover the whole
routine raises `AttributeError` at the baseline optimization before any
trial executes. -/
theorem C4_shocks_compound :
    riskTrialQuantities 1000 [1.5, 1.0] = [1500, 1500]
    ∧ (1500 : ℝ) ≠ 1000 * 1.0
    ∧ (calculate_risk_adjusted_price S0 6 [1.5, 1.0]).1 = .error .attributeError := by
  refine ⟨by norm_num [riskTrialQuantities], by norm_num, ?_⟩
  rw [calculate_risk_adjusted_price_fails]

/-- Claim C5 (code-bug evidence): `calculate_price_bounds` does return the
lower bound `variable_costs / (1 - min_margin)` and the upper bound
`3 · initial_price`, but at the spec's boundary input (min_margin 0.99,
variable_costs 1, initial_price 1) the lower bound 100 exceeds the upper
bound 3 and the function silently returns the inverted interval — its
return type has no error path, so no `DomainError` is possible. -/
theorem C5_inverted_interval_returned :
    (∀ s : Scenario, calculate_price_bounds s =
      (s.variable_costs / (1 - s.min_margin), s.initial_price * 3))
    ∧ calculate_price_bounds S5 = (100, 3)
    ∧ (3 : ℝ) < 100 := by
  refine ⟨fun s => by norm_num [calculate_price_bounds], ?_, by norm_num⟩
  norm_num [calculate_price_bounds, S5, S0]

/-- Equation: `seasonal_demand_adjustment` written without the intermediate let. -/
theorem seasonal_demand_adjustment_eq (s : Scenario) (m : ℕ) (b : ℝ) :
    seasonal_demand_adjustment s m b =
      b * (1 + s.seasonality_factor * Real.sin (2 * Real.pi * m / 12)) := rfl

/-- Claim C3 (code-bug evidence): sweeping `initial_price` on the spec
scenario (base value 50, range 20 percent), the first sweep point raises
`AttributeError` inside `calculate_optimal_price`, the sweep aborts, the
restore at models.py line 108 is never reached, and the scenario is left
with `initial_price` 40 = 50 · 0.8 instead of the original 50. -/
theorem C3_field_not_restored_on_error :
    S0.initial_price = 50
    ∧ (sensitivity_analysis S0 "initial_price" 0.2 6).1 = .error .attributeError
    ∧ (sensitivity_analysis S0 "initial_price" 0.2 6).2.initial_price = 40 := by
  have h : sensitivity_analysis S0 "initial_price" 0.2 6 =
      (.error .attributeError,
        setattrModel S0 "initial_price" (S0.initial_price * (1 - 0.2))) := by
    simp [sensitivity_analysis, getattrModel, linspace5, sensitivitySweep_cons_fails]
  refine ⟨by norm_num [S0], by rw [h], ?_⟩
  rw [h]
  norm_num [setattrModel, S0]

/-- Claim C6 (code-bug evidence): nothing in `forecast_optimal_prices` can
produce an `InsufficientDataError` — the code performs no history-length
validation and no exception type of that name exists in the repository; at
a 10-point history with 6 requested periods the failure is the library
fit's `ValueError` instead. -/
theorem C6_no_insufficient_data_error :
    (∀ (s : Scenario) (m periods : ℕ),
      (forecast_optimal_prices s m periods).1 ≠ .error .insufficientDataError)
    ∧ S10.historical_demands.length = 10
    ∧ (forecast_optimal_prices S10 6 6).1 = .error .valueError := by
  refine ⟨?_, by simp [S10], ?_⟩
  · intro s m periods
    unfold forecast_optimal_prices
    by_cases hl : s.historical_demands.length < 24
    · simp [holtWintersForecast, hl]
    · cases hp : List.replicate periods (0 : ℝ) with
      | nil => simp [holtWintersForecast, hl, hp, forecastLoop]
      | cons d rest => simp [holtWintersForecast, hl, hp, forecastLoop_cons_fails]
  · simp [forecast_optimal_prices, holtWintersForecast, S10, S0]

/-- Claim C7 (code-bug evidence): `seasonal_demand_adjustment` has no month
parameter — the month comes from the wall clock — so the same Python
arguments (`base_demand` 1, `seasonality_factor` 1) produce different
results as the ambient clock changes: 2 when the clock reads month 3 and 0
when it reads month 9.  The function is therefore not a pure function of
its explicit inputs. -/
theorem C7_result_depends_on_wall_clock :
    seasonal_demand_adjustment S0 3 1 = 2
    ∧ seasonal_demand_adjustment S0 9 1 = 0 := by
  have e3 : 2 * Real.pi * ((3 : ℕ) : ℝ) / 12 = Real.pi / 2 := by
    push_cast
    ring
  have e9 : 2 * Real.pi * ((9 : ℕ) : ℝ) / 12 = Real.pi + Real.pi / 2 := by
    push_cast
    ring
  have s9 : Real.sin (Real.pi + Real.pi / 2) = -1 := by
    rw [Real.sin_add, Real.sin_pi, Real.cos_pi, Real.sin_pi_div_two,
      Real.cos_pi_div_two]
    ring
  constructor
  · rw [seasonal_demand_adjustment_eq, e3, Real.sin_pi_div_two]
    norm_num [S0]
  · rw [seasonal_demand_adjustment_eq, e9, s9]
    norm_num [S0]

/-- Claim C8: `demand_function` equals the constant-elasticity base demand
`initial_quantity * (initial_price / quality_adjusted_price price) ^
elasticity` passed through the seasonal adjustment, then multiplied by the
growth factor `1 + market_growth_rate` — the growth-trend composition
variant. -/
theorem C8_demand_growth_composition (s : Scenario) (m : ℕ) (price : ℝ) :
    demand_function s m price =
      seasonal_demand_adjustment s m
        (s.initial_quantity *
          (s.initial_price / quality_adjusted_price s price) ^ s.elasticity)
      * (1 + s.market_growth_rate) := rfl

/-- Equation: `competitor_impact` written without the intermediate lets. -/
theorem competitor_impact_eq (s : Scenario) (p : ℝ) :
    competitor_impact s p =
      min (max (s.market_share * (2 - p / s.competitor_price)) 0) 1 := rfl

/-- Claim C9: for `competitor_price > 0` and `market_share ∈ [0, 1]`, the
spec-modelled `competitor_impact` is `market_share * (2 -
price/competitor_price)` clamped to [0, 1]; it is monotonically
non-increasing in price, always lands in [0, 1], and at `price =
competitor_price` reproduces the baseline `market_share`. -/
theorem C9_competitor_impact_properties (s : Scenario)
    (hcp : 0 < s.competitor_price) (hms0 : 0 ≤ s.market_share)
    (hms1 : s.market_share ≤ 1) :
    (∀ p, competitor_impact s p =
      min (max (s.market_share * (2 - p / s.competitor_price)) 0) 1)
    ∧ (∀ p q, p ≤ q → competitor_impact s q ≤ competitor_impact s p)
    ∧ (∀ p, 0 ≤ competitor_impact s p ∧ competitor_impact s p ≤ 1)
    ∧ competitor_impact s s.competitor_price = s.market_share := by
  refine ⟨fun p => rfl, ?_, ?_, ?_⟩
  · intro p q hpq
    rw [competitor_impact_eq, competitor_impact_eq]
    have hdiv : p / s.competitor_price ≤ q / s.competitor_price := by gcongr
    have hmul : s.market_share * (2 - q / s.competitor_price) ≤
        s.market_share * (2 - p / s.competitor_price) := by
      apply mul_le_mul_of_nonneg_left _ hms0
      linarith
    exact min_le_min (max_le_max hmul le_rfl) le_rfl
  · intro p
    rw [competitor_impact_eq]
    exact ⟨le_min (le_max_right _ _) zero_le_one, min_le_right _ _⟩
  · have hself : s.market_share * (2 - s.competitor_price / s.competitor_price) =
        s.market_share := by
      rw [div_self hcp.ne']
      ring
    rw [competitor_impact_eq, hself, max_eq_left hms0, min_eq_left hms1]

/-- Claim C9 witness: the properties instantiated at the spec section 8
scenario (competitor_price 55 > 0, market_share 0.5 ∈ [0, 1]); in
particular the impact at the competitor's own price is the baseline share. -/
theorem C9_witness :
    0 < S0.competitor_price ∧ 0 ≤ S0.market_share ∧ S0.market_share ≤ 1
    ∧ competitor_impact S0 S0.competitor_price = S0.market_share := by
  have h := C9_competitor_impact_properties S0 (by norm_num [S0])
    (by norm_num [S0]) (by norm_num [S0])
  exact ⟨by norm_num [S0], by norm_num [S0], by norm_num [S0], h.2.2.2⟩

/-- Claim C10 (code-bug evidence): for an attribute name that does not
exist on the object (here `brand_quality`), `sensitivity_analysis` fails at
the `getattr` with `AttributeError`, leaving the scenario untouched — not
with the `InvalidParameterError` the claim requires, an exception type that
exists nowhere in the repository. -/
theorem C10_unknown_name_raises_attribute_error :
    (∀ (s : Scenario) (r : ℝ) (m : ℕ),
      sensitivity_analysis s "brand_quality" r m = (.error .attributeError, s))
    ∧ PyErr.attributeError ≠ PyErr.invalidParameterError := by
  refine ⟨?_, by decide⟩
  intro s r m
  have hg : getattrModel s "brand_quality" = .missing := rfl
  simp [sensitivity_analysis, hg]

end PricingSim
